import Mathlib

/-!
Verification of the update-orchestration agent for a storage appliance's
chart/application subsystem (repository `truenas-auto-update`).

The development is a shallow embedding of the two Python sources:

* `src/app.py` — the dual-dialect version: dialect detector
  (`detect_truenas_version`), WebSocket session client
  (`TrueNASWebSocketAPI.connect` / `.call`), REST client, and the
  orchestrator `update_charts`.
* `src/app/main.py` — the legacy REST-only version: a module-level
  list/filter/process loop with the same normalization helpers.

Network effects are embedded as explicit oracle inputs: the HTTP probe
outcome, the handshake reply, the incoming WebSocket frame stream, and a
`Backend` record of client-method results.  Python falsiness of the values
actually flowing through the code (`None`/`""` for strings, `None`/`False`
for booleans, `None`/`[]` for lists) is modelled by explicit `pyTruthy*`
helpers on `Option` values.
-/

/-- Python truthiness of an optional string: `None` and `""` are falsy. -/
def pyTruthyStr : Option String → Bool
  | none => false
  | some s => !(s == "")

/-- Python truthiness of an optional boolean: `None` and `False` are falsy. -/
def pyTruthyBool : Option Bool → Bool
  | none => false
  | some b => b

/-- Python truthiness of an optional list: `None` and `[]` are falsy. -/
def pyTruthyList {α : Type} : Option (List α) → Bool
  | none => false
  | some l => !l.isEmpty

/-- Python `a or b` on optional strings: returns `a` when truthy, else `b`. -/
def pyOrStr (a b : Option String) : Option String :=
  if pyTruthyStr a then a else b

/-- One raw release record as returned by the backend's list call.
Fields the code reads are explicit (absent key = `none`);
`config_release_name` stands for `record.get("config", {}).get("release_name")`;
`name` is the alternate app-name field present in newer raw records but never
read by the code; `extra` stands for all remaining key/value junk a record
may carry. -/
structure RawRelease where
  release_name : Option String
  config_release_name : Option String
  id : Option String
  name : Option String
  update_available : Option Bool
  container_images_update_available : Option Bool
  extra : List (String × String)
deriving DecidableEq, Repr

/-- Candidate filter of `src/app.py` lines 340-341:
`release.get("update_available") or release.get("container_images_update_available")`,
used under Python truthiness by the list comprehension on line 343. -/
def needs_update (r : RawRelease) : Bool :=
  pyTruthyBool r.update_available || pyTruthyBool r.container_images_update_available

/-- Candidate filter of `src/app/main.py` lines 58-59 (textually the same
expression as in `src/app.py`). -/
def needs_update_legacy (r : RawRelease) : Bool :=
  pyTruthyBool r.update_available || pyTruthyBool r.container_images_update_available

/-- Identifier resolution of `src/app.py` lines 358-362:
`release.get("release_name") or release.get("config", {}).get("release_name") or release.get("id")`. -/
def resolve_identifier (r : RawRelease) : Option String :=
  pyOrStr (pyOrStr r.release_name r.config_release_name) r.id

/-- Identifier resolution of `src/app/main.py` lines 87-91 (textually the
same expression as in `src/app.py`). -/
def resolve_identifier_legacy (r : RawRelease) : Option String :=
  pyOrStr (pyOrStr r.release_name r.config_release_name) r.id

/-- Identifier resolution as the specification words it (§4.3): four sources
in fixed precedence order, first non-empty wins — direct name field, nested
configuration name field, generic identifier field, alternate app-name
field.  Written from the spec, for comparison with `resolve_identifier`,
which is written from the code. -/
def resolve_identifier_spec (r : RawRelease) : Option String :=
  pyOrStr (pyOrStr (pyOrStr r.release_name r.config_release_name) r.id) r.name

/-- Longest prefix of ASCII digits of a character list, with the remainder. -/
def takeDigits : List Char → List Char × List Char
  | [] => ([], [])
  | c :: cs =>
    if c.isDigit then
      let p := takeDigits cs
      (c :: p.1, p.2)
    else ([], c :: cs)

theorem takeDigits_snd_length (l : List Char) : (takeDigits l).2.length ≤ l.length := by
  induction l with
  | nil => simp [takeDigits]
  | cons c cs ih =>
    simp only [takeDigits]
    split
    · exact le_trans ih (Nat.le_succ _)
    · simp

/-- Scanner for the leftmost match of the pattern `\d+\.\d+`, driven by a
fuel counter so that the recursion is structural (the scan position always
advances, so fuel equal to the input length is always enough).  Scanning
start positions inside a digit run that fails is skipped wholesale: every
start inside the run fails for the same reason (the character after the
run is not a dot followed by a digit), so the result is the same as
Python's position-by-position scan. -/
def findVersionAux : Nat → List Char → Option (List Char × List Char)
  | 0, _ => none
  | _ + 1, [] => none
  | fuel + 1, c :: cs =>
    if c.isDigit then
      let p := takeDigits cs
      match p.2 with
      | '.' :: rest2 =>
        let q := takeDigits rest2
        if q.1.isEmpty then findVersionAux fuel p.2 else some (c :: p.1, q.1)
      | _ => findVersionAux fuel p.2
    else findVersionAux fuel cs

/-- Leftmost match of the pattern `\d+\.\d+` (as in
`re.search(r'(\d+\.\d+)', version)` on `src/app.py` line 104), returned as
the integer-part digits and the fraction-part digits. -/
def findVersion (l : List Char) : Option (List Char × List Char) :=
  findVersionAux l.length l

/-- Numeric value of a digit list, most significant first. -/
def digitsToNat (l : List Char) : Nat :=
  l.foldl (fun n c => 10 * n + (c.toNat - '0'.toNat)) 0

/-- Value of `float(match.group(1))` for a match `d1 "." d2`, modelled as an
exact rational (decimal-literal ordering agrees with IEEE-double ordering at
the magnitudes involved). -/
def versionNum (d1 d2 : List Char) : ℚ :=
  (digitsToNat d1 : ℚ) + (digitsToNat d2 : ℚ) / (10 : ℚ) ^ d2.length

/-- Outcome of the probe `GET {base}/api/v2.0/system/info`
(`src/app.py` lines 85-90): either a response with an HTTP status and the
`version` field of its JSON body, or a raised transport exception. -/
inductive ProbeResult where
  | ok (status : Nat) (version : String)
  | exn
deriving DecidableEq, Repr

/-- Dialect detector `detect_truenas_version` of `src/app.py` lines 76-127,
with the network call abstracted to its `ProbeResult`.  Returns the API
type (`"websocket"` or `"rest"`) and the diagnostic version string. -/
def detect_truenas_version (forceWebsocket : Bool) (probe : ProbeResult) :
    String × String :=
  match probe with
  | .ok status version =>
    if status == 200 then
      match findVersion version.data with
      | some (d1, d2) =>
        if versionNum d1 d2 ≥ (25.04 : ℚ) ∨ forceWebsocket = true then
          ("websocket", version)
        else
          ("rest", version)
      | none => ("rest", version)
    else ("rest", "unknown")
  | .exn => ("rest", "unknown")

/-- A frame the client writes to the socket.  `connectFrame` is the DDP
protocol-negotiation message of `src/app.py` lines 152-158; `methodFrame`
is a method call frame as built on lines 204-209 (id, method name, params
elided to the method name — construction never builds one, which is the
point of the claims about it). -/
inductive SentFrame where
  | connectFrame
  | methodFrame (method : String)
deriving DecidableEq, Repr

/-- Whether a written frame is a method call (a login would be one). -/
def isMethodFrame : SentFrame → Bool
  | .connectFrame => false
  | .methodFrame _ => true

/-- Environment of one run of `TrueNASWebSocketAPI.connect`: either
`create_connection` raises (nothing is ever written), or the connect frame
is written and the reply read raises or times out, or a reply JSON object
with the given `msg` and `session` fields arrives. -/
inductive HandshakeEnv where
  | connFail
  | recvFail
  | reply (msg : Option String) (session : Option String)
deriving DecidableEq, Repr

/-- Observable outcome of `TrueNASWebSocketAPI.connect`: its return value,
the frames written to the socket, and the stored session identifier. -/
structure ConnectOutcome where
  success : Bool
  sent : List SentFrame
  session : Option String
deriving DecidableEq, Repr

/-- `TrueNASWebSocketAPI.connect` of `src/app.py` lines 141-182, with the
socket abstracted to a `HandshakeEnv`.  The credential travels as a
`Bearer` header of `create_connection` (line 147); after the connect frame
the method returns as soon as the reply's `msg` field is checked — no
login call and no other method call is ever written. -/
def wsConnect : HandshakeEnv → ConnectOutcome
  | .connFail => ⟨false, [], none⟩
  | .recvFail => ⟨false, [.connectFrame], none⟩
  | .reply m s =>
    if m == some "connected" then ⟨true, [.connectFrame], s⟩
    else ⟨false, [.connectFrame], none⟩

/-- One incoming frame as parsed by `json.loads(self.ws.recv())`:
the fields the read loop of `TrueNASWebSocketAPI.call` inspects —
`id`, `msg`, presence of an `error` key, and the `result` payload
(payloads kept opaque as strings). -/
structure Frame where
  id : Option String
  msg : Option String
  error : Option String
  result : Option String
deriving DecidableEq, Repr

/-- The match test of `src/app.py` line 224:
`response.get("id") == str(call_id) and response.get("msg") == "result"`. -/
def frameMatches (callId : Nat) (f : Frame) : Bool :=
  f.id == some (toString callId) && f.msg == some "result"

/-- Read loop of `TrueNASWebSocketAPI.call`, `src/app.py` lines 218-236,
over the stream of incoming frames: frames that do not match the
outstanding call id are skipped; the first matching frame answers the call
(`none` if it carries an `error` key, else its `result` payload); stream
exhaustion is the read-timeout path (`WebSocketTimeoutException`), which
returns `None`. -/
def ws_call (callId : Nat) : List Frame → Option String
  | [] => none
  | f :: fs =>
    if frameMatches callId f then
      if (f.error).isSome then none else f.result
    else ws_call callId fs

/-- One `send_notification(title, message)` invocation (`src/app.py`
lines 60-67): the orchestrator's call into the external notifier. -/
structure Notification where
  title : String
  body : String
deriving DecidableEq, Repr

/-- Failure-type notifications carry the titles `"Error"` (list phase) or
`"Upgrade Failed"` (per item); the only success-type title is
`"Chart Updated"`. -/
def isFailureNotification (n : Notification) : Bool :=
  n.title == "Error" || n.title == "Upgrade Failed"

/-- The control-plane client as the orchestrator sees it, one field per
method of `TrueNASRestAPI` / `TrueNASWebSocketAPI`: `get_chart_releases`
returns the record list or `None` (transport failure or non-success
status), `upgrade_chart_release` returns the job id text or `None`, and
`wait_for_job` returns the truthiness of its result (`None` ↦ `false`). -/
structure Backend where
  get_chart_releases : Option (List RawRelease)
  upgrade_chart_release : String → Option String
  wait_for_job : String → Bool

/-- Observable effects of processing one candidate in the loop of
`src/app.py` lines 356-390: identifiers passed to
`upgrade_chart_release`, job ids passed to `wait_for_job`, notifications
sent, and the contribution to `update_count`. -/
structure ItemResult where
  triggered : List String
  waited : List String
  notifs : List Notification
  succ : Nat
deriving DecidableEq, Repr

/-- Sequential composition of per-item effects. -/
def combineItems (a b : ItemResult) : ItemResult :=
  ⟨a.triggered ++ b.triggered, a.waited ++ b.waited,
   a.notifs ++ b.notifs, a.succ + b.succ⟩

/-- One iteration of the process loop, `src/app.py` lines 356-390:
resolve the identifier and skip silently when it is falsy; otherwise call
`upgrade_chart_release`; a falsy job id sends an `"Upgrade Failed"`
notification and moves on; otherwise `wait_for_job` decides between the
success path (count it, optionally notify `"Chart Updated"`) and another
`"Upgrade Failed"` notification. -/
def processItem (b : Backend) (notifyOnSuccess : Bool) (r : RawRelease) :
    ItemResult :=
  match resolve_identifier r with
  | none => ⟨[], [], [], 0⟩
  | some ident =>
    if ident == "" then ⟨[], [], [], 0⟩
    else
      match b.upgrade_chart_release ident with
      | none =>
        ⟨[ident], [], [⟨"Upgrade Failed", "Failed to trigger upgrade for " ++ ident⟩], 0⟩
      | some jobId =>
        if jobId == "" then
          ⟨[ident], [], [⟨"Upgrade Failed", "Failed to trigger upgrade for " ++ ident⟩], 0⟩
        else if b.wait_for_job jobId then
          ⟨[ident], [jobId],
           if notifyOnSuccess then [⟨"Chart Updated", "Successfully updated " ++ ident⟩] else [],
           1⟩
        else
          ⟨[ident], [jobId],
           [⟨"Upgrade Failed",
             "Upgrade job for " ++ ident ++ " failed or did not complete successfully."⟩],
           0⟩

/-- The whole process loop over the filtered candidate list, in list
order. -/
def processAll (b : Backend) (notifyOnSuccess : Bool) :
    List RawRelease → ItemResult
  | [] => ⟨[], [], [], 0⟩
  | r :: rs => combineItems (processItem b notifyOnSuccess r) (processAll b notifyOnSuccess rs)

/-- Observable trace of one `update_charts` run: the client calls made, the
notifications sent, the final `update_count`, and the boolean return value
`update_count > 0`. -/
structure RunTrace where
  triggered : List String
  waited : List String
  notifs : List Notification
  updateCount : Nat
  result : Bool
deriving DecidableEq, Repr

/-- Orchestrator `update_charts` of `src/app.py` lines 314-398, after
dialect selection, with the chosen client abstracted to a `Backend`.
A falsy release list (`None` from the client, or the empty list — both hit
`if not releases`) sends one `"Error"` notification and returns `False`;
otherwise the candidates are filtered by `needs_update` and processed
sequentially, and the run returns `update_count > 0`. -/
def update_charts (b : Backend) (notifyOnSuccess : Bool) : RunTrace :=
  if !pyTruthyList b.get_chart_releases then
    ⟨[], [], [⟨"Error", "Failed to get chart releases"⟩], 0, false⟩
  else
    let releases := b.get_chart_releases.getD []
    let candidates := releases.filter needs_update
    let res := processAll b notifyOnSuccess candidates
    ⟨res.triggered, res.waited, res.notifs, res.succ, decide (res.succ > 0)⟩

theorem combineItems_assoc (a b c : ItemResult) :
    combineItems (combineItems a b) c = combineItems a (combineItems b c) := by
  simp [combineItems, List.append_assoc, Nat.add_assoc]

theorem combineItems_empty_left (x : ItemResult) :
    combineItems ⟨[], [], [], 0⟩ x = x := by
  simp [combineItems]

theorem processAll_append (b : Backend) (nos : Bool) (xs ys : List RawRelease) :
    processAll b nos (xs ++ ys)
      = combineItems (processAll b nos xs) (processAll b nos ys) := by
  induction xs with
  | nil => simp [processAll, combineItems_empty_left]
  | cons x xs ih => simp [processAll, ih, combineItems_assoc]

/-- C9: the update-pending flag of a raw record is true exactly when one of
the two known update-flag fields is present and true; absent fields count
as false, and the record's extra fields are ignored entirely (normalization
is a total function, so it cannot fail on them). -/
theorem needs_update_pending_iff (r : RawRelease) (e : List (String × String)) :
    (needs_update r = true ↔
      r.update_available = some true ∨ r.container_images_update_available = some true)
    ∧ needs_update { r with extra := e } = needs_update r := by
  rcases r with ⟨rn, cn, i, nm, ua, ciu, ex⟩
  refine ⟨?_, rfl⟩
  rcases ua with _ | u <;> rcases ciu with _ | c <;> (try cases u) <;> (try cases c) <;>
    simp [needs_update, pyTruthyBool]

/-- C10: the candidate filter and the identifier resolution of the legacy
REST-only version (`src/app/main.py`) and of the dual-dialect version
(`src/app.py`) agree on every raw record. -/
theorem legacy_normalization_equiv (r : RawRelease) :
    needs_update_legacy r = needs_update r
    ∧ resolve_identifier_legacy r = resolve_identifier r :=
  ⟨rfl, rfl⟩

/-- C5 counterexample: a record carrying only the alternate app-name field
resolves to nothing under the code's resolution, though the four-source
resolution of the claim would pick that field up. -/
theorem resolve_identifier_fourth_source_counterexample :
    resolve_identifier ⟨none, none, none, some "myapp", none, none, []⟩ = none
    ∧ resolve_identifier_spec ⟨none, none, none, some "myapp", none, none, []⟩
        = some "myapp" := by
  decide

/-- C5 (amended): the release identifier is resolved by trying, in fixed
precedence order with the first Python-truthy (non-empty) value winning,
three sources: the direct name field, the nested configuration name field,
and the generic identifier field.  No fourth source is consulted. -/
theorem resolve_identifier_order (r : RawRelease) :
    (pyTruthyStr r.release_name = true → resolve_identifier r = r.release_name)
    ∧ (pyTruthyStr r.release_name = false → pyTruthyStr r.config_release_name = true →
        resolve_identifier r = r.config_release_name)
    ∧ (pyTruthyStr r.release_name = false → pyTruthyStr r.config_release_name = false →
        resolve_identifier r = r.id) := by
  refine ⟨fun h => ?_, fun h₁ h₂ => ?_, fun h₁ h₂ => ?_⟩ <;>
    simp [resolve_identifier, pyOrStr, *]

theorem resolve_identifier_order_witness :
    resolve_identifier ⟨some "", some "cfg", some "i", none, none, none, []⟩
      = some "cfg" :=
  (resolve_identifier_order ⟨some "", some "cfg", some "i", none, none, none, []⟩).2.1
    (by decide) (by decide)

/-- C2 counterexample: with the forced-dialect override set, a probe that
raises a transport error, or returns a non-success status, or returns a
version string with no parseable number, still selects the REST dialect —
the override is only consulted after a successful probe and parse. -/
theorem detect_force_counterexample :
    (detect_truenas_version true ProbeResult.exn).1 = "rest"
    ∧ (detect_truenas_version true (ProbeResult.ok 500 "25.04")).1 = "rest"
    ∧ (detect_truenas_version true (ProbeResult.ok 200 "Beta")).1 = "rest"
    ∧ "rest" ≠ "websocket" := by
  decide

/-- C2 (amended): with the forced-dialect override set, the Dialect
Detector returns the SESSION (websocket) dialect exactly when the probe
succeeds with HTTP 200 and a `major.minor` number parses from the version
string; on a non-success status, a transport error, or a parse failure it
returns the REST dialect despite the override. -/
theorem detect_force_amended (p : ProbeResult) :
    (detect_truenas_version true p).1 = "websocket" ↔
      ∃ v d, p = ProbeResult.ok 200 v ∧ findVersion v.data = some d := by
  cases p with
  | exn => simp [detect_truenas_version]
  | ok st v =>
    by_cases hst : st = 200
    · subst hst
      cases hf : findVersion v.data with
      | none => simp [detect_truenas_version, hf]
      | some d =>
        constructor
        · intro _; exact ⟨v, d, rfl, hf⟩
        · intro _; simp [detect_truenas_version, hf]
    · have hbeq : (st == 200) = false := by simpa using hst
      simp [detect_truenas_version, hbeq, hst]

/-- C3 counterexample: a construction run whose handshake reply is the
`"connected"` acknowledgment succeeds while having sent zero method calls —
in particular zero login calls, contradicting the claimed
exactly-one-login-call behaviour. -/
theorem wsConnect_no_login_counterexample :
    (wsConnect (HandshakeEnv.reply (some "connected") (some "abc"))).success = true
    ∧ (wsConnect (HandshakeEnv.reply (some "connected") (some "abc"))).sent
        = [SentFrame.connectFrame]
    ∧ ((wsConnect (HandshakeEnv.reply (some "connected") (some "abc"))).sent.countP
        isMethodFrame) = 0 := by
  decide

/-- C3 (amended): during session-client construction the client never
sends a login call or any other method call — the only frame it can write
is the protocol connect message (the credential travels as a header on the
connection request itself) — and construction succeeds exactly when the
handshake reply's `msg` field is `"connected"`. -/
theorem wsConnect_amended (h : HandshakeEnv) :
    (∀ f ∈ (wsConnect h).sent, f = SentFrame.connectFrame)
    ∧ ((wsConnect h).success = true ↔
        ∃ s, h = HandshakeEnv.reply (some "connected") s) := by
  cases h with
  | connFail => simp [wsConnect]
  | recvFail => simp [wsConnect]
  | reply m s =>
    by_cases hm : m = some "connected"
    · subst hm
      simp [wsConnect]
    · have hbeq : (m == some "connected") = false := by simpa using hm
      simp [wsConnect, hbeq, hm]

theorem wsConnect_amended_witness :
    (wsConnect (HandshakeEnv.reply (some "connected") (some "s"))).success = true :=
  (wsConnect_amended (HandshakeEnv.reply (some "connected") (some "s"))).2.mpr
    ⟨some "s", rfl⟩

/-- C4: during one outstanding call, the read loop answers with the first
frame whose id equals the call's id (as a string) and whose msg is
`"result"`, skipping every earlier non-matching frame; exhausting the
stream without a match (the read-timeout path) fails the call, and a
matching frame that carries an `error` field fails the call instead of
succeeding. -/
theorem ws_call_correlation (callId : Nat) (frames : List Frame) :
    ((∀ g ∈ frames, frameMatches callId g = false) → ws_call callId frames = none)
    ∧ (∀ pre f post, frames = pre ++ f :: post →
        (∀ g ∈ pre, frameMatches callId g = false) →
        frameMatches callId f = true →
        ws_call callId frames =
          if (f.error).isSome then none else f.result) := by
  constructor
  · intro hall
    induction frames with
    | nil => rfl
    | cons g gs ih =>
      have hg := hall g (by simp)
      simp only [ws_call, hg, Bool.false_eq_true, if_false]
      exact ih fun x hx => hall x (by simp [hx])
  · intro pre f post hfr hpre hf
    subst hfr
    induction pre with
    | nil => simp [ws_call, hf]
    | cons g gs ih =>
      have hg := hpre g (by simp)
      simp only [List.cons_append, ws_call, hg, Bool.false_eq_true, if_false]
      exact ih fun x hx => hpre x (by simp [hx])

theorem ws_call_correlation_witness :
    ws_call 7 [⟨some "3", some "result", none, some "other"⟩,
               ⟨some "7", some "result", none, some "payload"⟩] = some "payload" := by
  have h := (ws_call_correlation 7
      [⟨some "3", some "result", none, some "other"⟩,
       ⟨some "7", some "result", none, some "payload"⟩]).2
      [⟨some "3", some "result", none, some "other"⟩]
      ⟨some "7", some "result", none, some "payload"⟩ [] rfl
      (by decide) (by decide)
  simpa using h

/-- C7: when the list call fails (`None` from the client, covering both a
transport failure and a non-success status), the run aborts at once:
exactly one notification is sent, it is of failure type, and no upgrade
trigger, no job wait, and no further processing occurs. -/
theorem list_failure_aborts (b : Backend) (nos : Bool)
    (h : b.get_chart_releases = none) :
    update_charts b nos
        = ⟨[], [], [⟨"Error", "Failed to get chart releases"⟩], 0, false⟩
    ∧ ((update_charts b nos).notifs.countP fun n => isFailureNotification n) = 1 := by
  have htrace : update_charts b nos
      = ⟨[], [], [⟨"Error", "Failed to get chart releases"⟩], 0, false⟩ := by
    simp [update_charts, h, pyTruthyList]
  refine ⟨htrace, ?_⟩
  rw [htrace]
  decide

theorem list_failure_aborts_witness :
    update_charts ⟨none, fun _ => none, fun _ => false⟩ false
      = ⟨[], [], [⟨"Error", "Failed to get chart releases"⟩], 0, false⟩ :=
  (list_failure_aborts ⟨none, fun _ => none, fun _ => false⟩ false rfl).1

/-- C8: a non-empty release list in which no record has an update flag set
produces a run with no upgrade triggers, no job waits, no notifications at
all (in particular none of failure type), a zero success count, and the
`False` return value. -/
theorem no_updates_needed (b : Backend) (nos : Bool) (L : List RawRelease)
    (hL : b.get_chart_releases = some L) (hne : L ≠ [])
    (hflags : ∀ r ∈ L, needs_update r = false) :
    (update_charts b nos).triggered = []
    ∧ (update_charts b nos).waited = []
    ∧ (update_charts b nos).notifs = []
    ∧ (update_charts b nos).updateCount = 0
    ∧ (update_charts b nos).result = false := by
  have hfil : L.filter needs_update = [] := by
    rw [List.filter_eq_nil_iff]
    intro a ha
    simp [hflags a ha]
  have htr : pyTruthyList (some L : Option (List RawRelease)) = true := by
    simp [pyTruthyList, List.isEmpty_eq_false, hne]
  simp [update_charts, hL, htr, hfil, processAll]

theorem no_updates_needed_witness :
    (update_charts
      ⟨some [⟨some "a", none, none, none, some false, none, []⟩],
       fun _ => none, fun _ => false⟩ false).triggered = [] :=
  (no_updates_needed
    ⟨some [⟨some "a", none, none, none, some false, none, []⟩],
     fun _ => none, fun _ => false⟩ false
    [⟨some "a", none, none, none, some false, none, []⟩]
    rfl (by decide) (by decide)).1

theorem processAll_ignores_list (b : Backend) (L : Option (List RawRelease))
    (nos : Bool) (l : List RawRelease) :
    processAll { b with get_chart_releases := L } nos l = processAll b nos l := by
  induction l with
  | nil => rfl
  | cons x xs ih =>
    simp only [processAll, ih]
    rfl

/-- C6: a release whose identifier resolves to nothing Python-truthy is
invisible to the run: processing it triggers no upgrade, waits on no job,
sends no notification and counts nothing, and the whole run behaves as if
the record were absent from the list (so all remaining candidates are
still processed). -/
theorem unresolved_identifier_skipped (b : Backend) (nos : Bool)
    (pre post : List RawRelease) (r : RawRelease)
    (h : pyTruthyStr (resolve_identifier r) = false) :
    processItem b nos r = ⟨[], [], [], 0⟩
    ∧ (pre ++ post ≠ [] →
        update_charts { b with get_chart_releases := some (pre ++ r :: post) } nos
          = update_charts { b with get_chart_releases := some (pre ++ post) } nos) := by
  have hitem : processItem b nos r = ⟨[], [], [], 0⟩ := by
    cases hres : resolve_identifier r with
    | none => simp [processItem, hres]
    | some s =>
      have hs : s = "" := by
        rw [hres] at h
        simpa [pyTruthyStr] using h
      subst hs
      simp [processItem, hres]
  refine ⟨hitem, fun hne => ?_⟩
  have hPA : processAll b nos ((pre ++ r :: post).filter needs_update)
      = processAll b nos ((pre ++ post).filter needs_update) := by
    rw [List.filter_append, List.filter_append, processAll_append, processAll_append]
    congr 1
    cases hq : needs_update r with
    | false => simp [List.filter_cons, hq]
    | true =>
      simp [List.filter_cons, hq, processAll, hitem, combineItems_empty_left]
  have h₁ : pyTruthyList (some (pre ++ r :: post) : Option (List RawRelease)) = true := by
    simp [pyTruthyList, List.isEmpty_eq_false]
  have h₂ : pyTruthyList (some (pre ++ post) : Option (List RawRelease)) = true := by
    simp [pyTruthyList, List.isEmpty_eq_false, hne]
  simp only [update_charts, h₁, h₂, Option.getD_some, Bool.not_true, Bool.false_eq_true,
    if_false, processAll_ignores_list]
  rw [hPA]

theorem unresolved_identifier_skipped_witness :
    update_charts
      ⟨some [⟨some "a", none, none, none, some true, none, []⟩,
             ⟨none, none, none, none, some true, none, []⟩],
       fun _ => none, fun _ => false⟩ false
    = update_charts
      ⟨some [⟨some "a", none, none, none, some true, none, []⟩],
       fun _ => none, fun _ => false⟩ false :=
  (unresolved_identifier_skipped
    ⟨some [⟨some "a", none, none, none, some true, none, []⟩],
     fun _ => none, fun _ => false⟩ false
    [⟨some "a", none, none, none, some true, none, []⟩] []
    ⟨none, none, none, none, some true, none, []⟩
    (by decide)).2 (by decide)

/-- C1: a trigger failure for an earlier candidate A does not abort the
batch: the run emits the `"Upgrade Failed"` notification for A, still
issues the upgrade trigger for the later candidate B, and when B's trigger
and job wait succeed the success counter registers it and the run returns
`True`. -/
theorem trigger_failure_does_not_abort
    (b : Backend) (nos : Bool) (L l₁ l₂ l₃ : List RawRelease) (A B : RawRelease)
    (na nb jb : String)
    (hL : b.get_chart_releases = some L)
    (hcand : L.filter needs_update = l₁ ++ A :: (l₂ ++ B :: l₃))
    (hA : resolve_identifier A = some na) (hna : na ≠ "")
    (hAfail : pyTruthyStr (b.upgrade_chart_release na) = false)
    (hB : resolve_identifier B = some nb) (hnb : nb ≠ "")
    (hBtrig : b.upgrade_chart_release nb = some jb) (hjb : jb ≠ "")
    (hBwait : b.wait_for_job jb = true) :
    (⟨"Upgrade Failed", "Failed to trigger upgrade for " ++ na⟩ : Notification)
        ∈ (update_charts b nos).notifs
    ∧ nb ∈ (update_charts b nos).triggered
    ∧ 1 ≤ (update_charts b nos).updateCount
    ∧ (update_charts b nos).result = true := by
  have hnaeq : (na == "") = false := by simpa using hna
  have hnbeq : (nb == "") = false := by simpa using hnb
  have hjbeq : (jb == "") = false := by simpa using hjb
  have hitemA : processItem b nos A
      = ⟨[na], [], [⟨"Upgrade Failed", "Failed to trigger upgrade for " ++ na⟩], 0⟩ := by
    cases htA : b.upgrade_chart_release na with
    | none => simp [processItem, hA, hnaeq, htA]
    | some j =>
      have hj : j = "" := by
        rw [htA] at hAfail
        simpa [pyTruthyStr] using hAfail
      subst hj
      simp [processItem, hA, hnaeq, htA]
  have hitemB : processItem b nos B
      = ⟨[nb], [jb],
         if nos then [⟨"Chart Updated", "Successfully updated " ++ nb⟩] else [], 1⟩ := by
    simp [processItem, hB, hnbeq, hBtrig, hjbeq, hBwait]
  have hLne : L ≠ [] := by
    intro hnil
    rw [hnil] at hcand
    exact absurd hcand.symm (by simp)
  have htr : pyTruthyList (some L : Option (List RawRelease)) = true := by
    simp [pyTruthyList, List.isEmpty_eq_false, hLne]
  have hSeq : processAll b nos (L.filter needs_update)
      = combineItems (processAll b nos l₁)
          (combineItems (processItem b nos A)
            (combineItems (processAll b nos l₂)
              (combineItems (processItem b nos B) (processAll b nos l₃)))) := by
    rw [hcand, processAll_append]
    simp only [processAll]
    rw [processAll_append]
    simp only [processAll]
  have hrun : update_charts b nos
      = ⟨(processAll b nos (L.filter needs_update)).triggered,
         (processAll b nos (L.filter needs_update)).waited,
         (processAll b nos (L.filter needs_update)).notifs,
         (processAll b nos (L.filter needs_update)).succ,
         decide ((processAll b nos (L.filter needs_update)).succ > 0)⟩ := by
    simp [update_charts, hL, htr]
  have hsucc : 1 ≤ (processAll b nos (L.filter needs_update)).succ := by
    rw [hSeq]
    simp [combineItems, hitemB]
    omega
  refine ⟨?_, ?_, ?_, ?_⟩ <;> rw [hrun]
  · show _ ∈ (processAll b nos (L.filter needs_update)).notifs
    rw [hSeq]
    simp [combineItems, hitemA]
  · show _ ∈ (processAll b nos (L.filter needs_update)).triggered
    rw [hSeq]
    simp [combineItems, hitemB]
  · exact hsucc
  · exact decide_eq_true hsucc

theorem trigger_failure_does_not_abort_witness :
    1 ≤ (update_charts
        ⟨some [⟨some "a", none, none, none, some true, none, []⟩,
               ⟨some "b", none, none, none, some true, none, []⟩],
         fun s => if s == "b" then some "17" else none,
         fun _ => true⟩ false).updateCount :=
  (trigger_failure_does_not_abort
    ⟨some [⟨some "a", none, none, none, some true, none, []⟩,
           ⟨some "b", none, none, none, some true, none, []⟩],
     fun s => if s == "b" then some "17" else none,
     fun _ => true⟩ false
    [⟨some "a", none, none, none, some true, none, []⟩,
     ⟨some "b", none, none, none, some true, none, []⟩]
    [] [] []
    ⟨some "a", none, none, none, some true, none, []⟩
    ⟨some "b", none, none, none, some true, none, []⟩
    "a" "b" "17"
    rfl (by decide) (by decide) (by decide) (by decide) (by decide) (by decide)
    (by decide) (by decide) rfl).2.2.1
